import Mathlib

/-!
Verification of the batch data-generation pipeline in `generate_fake_data.py`.

The script generates synthetic customer (`cadastros`) and order (`pedidos`)
records and loads them into a DuckDB database.  We embed the pipeline
shallowly:

* The seeded pseudo-random source (`random.seed(42)` seeds Python's global
  `random` module) is modelled as a stream `ℕ → ℚ` of draws in `[0, 1)`;
  `random.uniform a b` is `a + (b - a) * draw` and `random.choice l` indexes
  `l` at `⌊draw * l.length⌋`, exactly the data flow of the CPython calls.
* The operating-system entropy consumed by `uuid.uuid4()` and by the Faker
  generator (`fake = Faker('pt_BR')` is never seeded: `random.seed` does not
  touch Faker's internal `random.Random` instance, and `Faker.seed` is never
  called) is modelled by the `OsStreams` structure: a stream of uuid strings,
  a stream of Faker string outputs, and a stream of digits used by
  `fake.bothify(text='###.###.###-##')`.
* Money values are rationals; Python's `round(x, 2)` is `round (x * 100) / 100`.
* pandas dataframes are lists of records; `drop_duplicates(subset=['cpf'])`
  keeps the first record with each cpf (`dedupBy`); `pd.concat` is `List.flatten`;
  `df.head n` is `List.take n`.
* DuckDB state is modelled explicitly: the catalog for `CREATE TABLE IF NOT
  EXISTS`, lists of rows for the relations, and `INSERT OR IGNORE` as a fold
  that drops rows conflicting with a uniqueness constraint.
* Exception behaviour is modelled with `Except`: a second embedding of the two
  generators (`gerar_lote_cadastrosE`, `gerar_lote_pedidosE`) keeps the
  try/except structure of the source, with the fallible library calls
  (building one record, `pd.DataFrame`, `pd.concat`) abstracted as
  `Except`-valued parameters.
-/

/-- A draw of Python's `random` module: `random.uniform a b = a + (b-a) * random()`
with `random() ∈ [0,1)`. -/
def pyuniform (a b x : ℚ) : ℚ := a + (b - a) * x

/-- Python's `round(x, 2)` on the rational model: round `x*100` to the nearest
integer and divide back.  (Ties do not occur in any property proved below.) -/
def round2 (q : ℚ) : ℚ := (round (q * 100) : ℤ) / 100

/-- Python's `random.choice l` driven by one draw `x ∈ [0,1)`: index
`⌊x * l.length⌋`.  `d` is returned for the empty list (where CPython raises;
callers below either require `l ≠ []` or model the raise separately). -/
def pychoice {α : Type} (x : ℚ) (l : List α) (d : α) : α :=
  l.getD (⌊x * (l.length : ℚ)⌋).toNat d

/-- Python's `range(start, stop, step)` for a positive step. -/
def pyrange (start stop step : ℕ) : List ℕ :=
  List.range' start ((stop - start + step - 1) / step) step

/-- pandas `drop_duplicates(subset=[key])` with the default `keep='first'`:
keep each record whose key was not seen earlier.  `seen` accumulates the keys
already kept. -/
def dedupByAux {α β : Type} [DecidableEq β] (key : α → β) :
    List α → List β → List α
  | [], _ => []
  | x :: xs, seen =>
    if key x ∈ seen then dedupByAux key xs seen
    else x :: dedupByAux key xs (key x :: seen)

/-- pandas `df.drop_duplicates(subset=[key])` (keep the first occurrence). -/
def dedupBy {α β : Type} [DecidableEq β] (key : α → β) (l : List α) : List α :=
  dedupByAux key l []

/-- Character kept by `s.replace('.', '').replace('-', '')`. -/
def keepCh (ch : Char) : Bool := ch != '.' && ch != '-'

/-- Python `s.replace('.', '').replace('-', '')`: removing every dot and dash
is filtering them out of the character list. -/
def stripSep (s : String) : String :=
  String.mk (s.data.filter keepCh)

/-- The `cadastros` row produced by one iteration of the generation loop
(`gerar_lote_cadastros`, lines 81–95 of the source). -/
structure Cadastro where
  id : String
  nome : String
  data_nascimento : String
  cpf : String
  cep : String
  cidade : String
  estado : String
  pais : String
  genero : String
  telefone : String
  email : String
  data_cadastro : String
deriving DecidableEq

/-- The `pedidos` row produced by one iteration of the generation loop
(`gerar_lote_pedidos`, lines 129–157 of the source). -/
structure Pedido where
  id_pedido : String
  cpf : String
  valor_pedido : ℚ
  valor_frete : ℚ
  valor_desconto : ℚ
  cupom : Option String
  endereco_entrega_logradouro : String
  endereco_entrega_numero : String
  endereco_entrega_bairro : String
  endereco_entrega_cidade : String
  endereco_entrega_estado : String
  endereco_entrega_pais : String
  status_pedido : String
  data_pedido : String
deriving DecidableEq

/-- The entropy sources that are NOT governed by `random.seed(42)`:
`uuid.uuid4()` (OS entropy) and the Faker generator, which the script never
seeds (`Faker.seed` is not called; `random.seed` does not affect Faker's
internal `random.Random` instance).  `digits` drives
`fake.bothify(text='###.###.###-##')`, which substitutes one random digit per
`#`; `faker` gives the other Faker call results as strings. -/
structure OsStreams where
  uuid : ℕ → String
  faker : ℕ → String
  digits : ℕ → Fin 10

/-- `fake.bothify(text='###.###.###-##')`: eleven random digits laid into the
fixed cpf mask.  Record `i` consumes digit draws `11*i .. 11*i+10`. -/
def mkCpf (d : ℕ → Fin 10) (i : ℕ) : String :=
  let g : ℕ → Char := fun j => Char.ofNat (48 + (d (11 * i + j)).val)
  String.mk [g 0, g 1, g 2, '.', g 3, g 4, g 5, '.', g 6, g 7, g 8, '-', g 9, g 10]

/-- One candidate customer record (source lines 81–95).  Per candidate the
script performs one `bothify` (eleven digit draws), seven further Faker calls
(name, date of birth, postcode, city, state abbreviation, phone, registration
date — positions `7*i .. 7*i+6`), one `uuid.uuid4()` (position `i`) and one
seeded draw for `random.choice(['M', 'F'])` (position `i`); the consumption
per record is fixed, so the positions are closed-form in `i`.  The email is
derived from the cpf by `cpf.replace('.', '').replace('-', '')`. -/
def gerarCadastro (o : OsStreams) (r : ℕ → ℚ) (i : ℕ) : Cadastro :=
  let cpf := mkCpf o.digits i
  { id := o.uuid i
    nome := o.faker (7 * i)
    data_nascimento := o.faker (7 * i + 1)
    cpf := cpf
    cep := o.faker (7 * i + 2)
    cidade := o.faker (7 * i + 3)
    estado := o.faker (7 * i + 4)
    pais := "Brasil"
    genero := pychoice (r i) ["M", "F"] ""
    telefone := o.faker (7 * i + 5)
    email := stripSep cpf ++ "@exemplo.com.br"
    data_cadastro := o.faker (7 * i + 6) }

/-- All candidate records the chunk loop of `gerar_lote_cadastros` builds for
a requested size `n` (before any de-duplication). -/
def cadCandidates (o : OsStreams) (r : ℕ → ℚ) (n : ℕ) : List Cadastro :=
  (List.range n).map (gerarCadastro o r)

/-- The per-chunk dataframes accumulated by `gerar_lote_cadastros`: the chunk
loop `range(0, tamanho_lote, 10000)` builds, for each chunk start `s`, the
candidates `s .. min (s+10000) tamanho_lote - 1` and drops duplicate cpfs
inside the chunk (`df_chunk.drop_duplicates(subset=['cpf'])`). -/
def cadChunks (o : OsStreams) (r : ℕ → ℚ) (n : ℕ) : List (List Cadastro) :=
  (pyrange 0 n 10000).map
    (fun s => dedupBy (fun c => c.cpf)
      ((List.range' s (min (s + 10000) n - s)).map (gerarCadastro o r)))

/-- `gerar_lote_cadastros(tamanho_lote)` (source lines 68–114): generate the
records in sub-chunks of 10000, drop duplicate cpfs inside each chunk,
concatenate the chunks, drop duplicate cpfs across the whole batch, and
truncate with `df.head(tamanho_lote)`; with no chunks (`tamanho_lote = 0`) an
empty dataframe is returned. -/
def gerar_lote_cadastros (o : OsStreams) (r : ℕ → ℚ) (tamanho_lote : ℕ) :
    List Cadastro :=
  if (cadChunks o r tamanho_lote).isEmpty then []
  else (dedupBy (fun c => c.cpf) (cadChunks o r tamanho_lote).flatten).take tamanho_lote

/-- The five order statuses of the source. -/
def statusPedido : List String := ["pendente", "pago", "enviado", "entregue", "cancelado"]

/-- Positions of the next unconsumed draw in each entropy source: `fp` for
Faker, `up` for `uuid.uuid4()`, `rp` for the seeded `random` module. -/
structure GenPos where
  fp : ℕ
  up : ℕ
  rp : ℕ
deriving DecidableEq

/-- One order record (source lines 129–157), threading the consumption
positions.  Call order: `random.choice(cpfs)`, `random.uniform(50, 2000)`,
`random.random() < 0.2`, then — only when there is a discount —
`random.uniform(0.05, 0.2)` and a uuid for the coupon code
(`"CUPOM" + str(uuid.uuid4())[:8].upper()`), then a uuid for `id_pedido`,
`random.uniform(5, 100)` for the freight, five Faker address calls, the
seeded status choice and a Faker date. -/
def gerarPedido (o : OsStreams) (r : ℕ → ℚ) (cpfs : List String) (p : GenPos) :
    Pedido × GenPos :=
  let cpf := pychoice (r p.rp) cpfs ""
  let valor_total := round2 (pyuniform 50 2000 (r (p.rp + 1)))
  if r (p.rp + 2) < 1/5 then
    ({ id_pedido := o.uuid (p.up + 1)
       cpf := cpf
       valor_pedido := valor_total
       valor_frete := round2 (pyuniform 5 100 (r (p.rp + 4)))
       valor_desconto := round2 (valor_total * pyuniform (1/20) (1/5) (r (p.rp + 3)))
       cupom := some ("CUPOM" ++ ((o.uuid p.up).take 8).toUpper)
       endereco_entrega_logradouro := o.faker p.fp
       endereco_entrega_numero := o.faker (p.fp + 1)
       endereco_entrega_bairro := o.faker (p.fp + 2)
       endereco_entrega_cidade := o.faker (p.fp + 3)
       endereco_entrega_estado := o.faker (p.fp + 4)
       endereco_entrega_pais := "Brasil"
       status_pedido := pychoice (r (p.rp + 5)) statusPedido ""
       data_pedido := o.faker (p.fp + 5) },
     ⟨p.fp + 6, p.up + 2, p.rp + 6⟩)
  else
    ({ id_pedido := o.uuid p.up
       cpf := cpf
       valor_pedido := valor_total
       valor_frete := round2 (pyuniform 5 100 (r (p.rp + 3)))
       valor_desconto := 0
       cupom := none
       endereco_entrega_logradouro := o.faker p.fp
       endereco_entrega_numero := o.faker (p.fp + 1)
       endereco_entrega_bairro := o.faker (p.fp + 2)
       endereco_entrega_cidade := o.faker (p.fp + 3)
       endereco_entrega_estado := o.faker (p.fp + 4)
       endereco_entrega_pais := "Brasil"
       status_pedido := pychoice (r (p.rp + 4)) statusPedido ""
       data_pedido := o.faker (p.fp + 5) },
     ⟨p.fp + 6, p.up + 1, p.rp + 5⟩)

/-- The inner record loop of `gerar_lote_pedidos` building `k` records (no
record fails in the value-level embedding; the exception structure is the
subject of `gerar_lote_pedidosE` below). -/
def buildPedidos (o : OsStreams) (r : ℕ → ℚ) (cpfs : List String) :
    ℕ → GenPos → List Pedido × GenPos
  | 0, p => ([], p)
  | k + 1, p =>
    let x := gerarPedido o r cpfs p
    let y := buildPedidos o r cpfs k x.2
    (x.1 :: y.1, y.2)

/-- The chunk loop of `gerar_lote_pedidos`: one chunk of
`min (s+10000) n - s` records per chunk start `s`, threading the entropy
positions across chunks. -/
def pedChunksGo (o : OsStreams) (r : ℕ → ℚ) (cpfs : List String) (n : ℕ) :
    List ℕ → GenPos → List (List Pedido) × GenPos
  | [], p => ([], p)
  | s :: ss, p =>
    let c := buildPedidos o r cpfs (min (s + 10000) n - s) p
    let rest := pedChunksGo o r cpfs n ss c.2
    (c.1 :: rest.1, rest.2)

/-- `gerar_lote_pedidos(cpfs, tamanho_lote)` (source lines 116–184) at value
level: chunks of at most 10000 records, concatenated with `pd.concat`
(`List.flatten`; the empty chunk list yields the empty dataframe). -/
def gerar_lote_pedidos (o : OsStreams) (r : ℕ → ℚ) (cpfs : List String)
    (tamanho_lote : ℕ) : List Pedido :=
  ((pedChunksGo o r cpfs tamanho_lote (pyrange 0 tamanho_lote 10000) ⟨0, 0, 0⟩).1).flatten

/-- The fields of an order that are computed from the seeded `random` module
(plus whether a coupon is present, which is decided by the seeded
`random.random() < 0.2` draw).  The coupon code itself and `id_pedido` come
from `uuid.uuid4()` and the address/date fields from the unseeded Faker
generator. -/
def seedView (p : Pedido) : String × ℚ × ℚ × ℚ × Bool × String :=
  (p.cpf, p.valor_pedido, p.valor_frete, p.valor_desconto, p.cupom.isSome, p.status_pedido)

/-- `SELECT cpf FROM cadastros` read back by `main` (source line 242) as the
list of cpfs handed to the order generator. -/
def cpfs_cadastrados (table : List Cadastro) : List String :=
  table.map (fun c => c.cpf)

/-- Exception-level embedding of `gerar_lote_cadastros`: building one record
is a fallible call (`build i` for loop iteration `i`), and the source has NO
try/except inside this function, so the first failure propagates out of the
whole call.  Sequences the builds of one chunk. -/
def cadChunkE (build : ℕ → Except String Cadastro) :
    List ℕ → Except String (List Cadastro)
  | [] => .ok []
  | i :: is =>
    match build i with
    | .error e => .error e
    | .ok c =>
      match cadChunkE build is with
      | .error e => .error e
      | .ok cs => .ok (c :: cs)

/-- Exception-level chunk loop of `gerar_lote_cadastros` (per-chunk
de-duplication as in the source; errors propagate). -/
def cadChunksE (build : ℕ → Except String Cadastro) (n : ℕ) :
    List ℕ → Except String (List (List Cadastro))
  | [] => .ok []
  | s :: ss =>
    match cadChunkE build (List.range' s (min (s + 10000) n - s)) with
    | .error e => .error e
    | .ok cd =>
      match cadChunksE build n ss with
      | .error e => .error e
      | .ok rest => .ok (dedupBy (fun c => c.cpf) cd :: rest)

/-- The tail of `gerar_lote_cadastros` applied to the outcome of the chunk
loop: on success, concatenate, de-duplicate by cpf and truncate (empty
dataframe when there is no chunk); a raised error keeps propagating. -/
def cadAssemble (n : ℕ) (res : Except String (List (List Cadastro))) :
    Except String (List Cadastro) :=
  match res with
  | .error e => .error e
  | .ok chunks =>
    if chunks.isEmpty then .ok []
    else .ok ((dedupBy (fun c => c.cpf) chunks.flatten).take n)

/-- Exception-level `gerar_lote_cadastros`: a failure while building any
record aborts the whole batch (there is no handler in source lines 68–114). -/
def gerar_lote_cadastrosE (build : ℕ → Except String Cadastro) (n : ℕ) :
    Except String (List Cadastro) :=
  cadAssemble n (cadChunksE build n (pyrange 0 n 10000))

/-- Exception-level inner loop of `gerar_lote_pedidos`: each record build is
wrapped in `try/except ... continue` (source lines 130–160), so a failing
record is skipped and the loop continues. -/
def pedChunkE (build : ℕ → Except String Pedido) : List ℕ → List Pedido
  | [] => []
  | i :: is =>
    match build i with
    | .ok p => p :: pedChunkE build is
    | .error _ => pedChunkE build is

/-- Exception-level chunk loop of `gerar_lote_pedidos`: an empty chunk is
skipped (`if not chunk_data: continue`), and the `pd.DataFrame(chunk_data)`
call (`mkDf`) is wrapped in `try/except ... continue` (source lines 162–173). -/
def pedChunksE (build : ℕ → Except String Pedido)
    (mkDf : List Pedido → Except String (List Pedido)) (n : ℕ) :
    List ℕ → List (List Pedido)
  | [] => []
  | s :: ss =>
    let cd := pedChunkE build (List.range' s (min (s + 10000) n - s))
    let rest := pedChunksE build mkDf n ss
    if cd.isEmpty then rest
    else
      match mkDf cd with
      | .ok dfc => dfc :: rest
      | .error _ => rest

/-- The outer `try/except` of `gerar_lote_pedidos` (source lines 118 and
182–184): a body that raises is caught and replaced by an empty dataframe. -/
def tryBody (body : Except String (List Pedido)) : Except String (List Pedido) :=
  match body with
  | .ok l => .ok l
  | .error _ => .ok []

/-- Exception-level `gerar_lote_pedidos` (source lines 116–184): the whole
body sits in an outer `try` whose `except` returns an empty dataframe; inside
it, the only unguarded fallible call left is `pd.concat` (`concatDf`), invoked
when the chunk list is non-empty. -/
def gerar_lote_pedidosE (build : ℕ → Except String Pedido)
    (mkDf : List Pedido → Except String (List Pedido))
    (concatDf : List (List Pedido) → Except String (List Pedido))
    (n : ℕ) : Except String (List Pedido) :=
  tryBody
    (if (pedChunksE build mkDf n (pyrange 0 n 10000)).isEmpty then Except.ok []
     else concatDf (pedChunksE build mkDf n (pyrange 0 n 10000)))

/-- Uniqueness conflict for the `cadastros` relation: `id` is the primary key
and `cpf` and `email` carry `UNIQUE` constraints (source lines 26–41). -/
def conflictCad (a b : Cadastro) : Bool :=
  a.id == b.id || a.cpf == b.cpf || a.email == b.email

/-- DuckDB `INSERT OR IGNORE INTO t SELECT * FROM temp_df`: rows are inserted
in order and a row conflicting with an already-present row (pre-existing or
inserted earlier in the same statement) is silently dropped. -/
def insertOrIgnore {α : Type} (conflict : α → α → Bool)
    (table df : List α) : List α :=
  df.foldl (fun acc row => if acc.any (fun x => conflict x row) then acc else acc ++ [row])
    table

/-- `inserir_em_lote(tabela, df)` (source lines 186–210): on an empty
dataframe return immediately (nothing logged, modelled as `none`); otherwise
run `INSERT OR IGNORE` and log `SELECT COUNT(*) as inseridos FROM temp_df` —
i.e. the size of the staged dataframe.  Returns the new table contents and
the logged count. -/
def inserir_em_lote {α : Type} (conflict : α → α → Bool)
    (table df : List α) : List α × Option ℕ :=
  if df.isEmpty then (table, none)
  else (insertOrIgnore conflict table df, some df.length)

/-- One column of a `CREATE TABLE` statement. -/
structure ColumnDef where
  name : String
  type : String
  primaryKey : Bool
  unique : Bool
deriving DecidableEq

/-- A table definition: columns plus foreign keys `(column, refTable, refColumn)`. -/
structure TableDef where
  columns : List ColumnDef
  foreignKeys : List (String × String × String)
deriving DecidableEq

/-- The `cadastros` DDL of `criar_tabelas` (source lines 26–41). -/
def cadastrosDef : TableDef :=
  { columns :=
      [⟨"id", "UUID", true, false⟩,
       ⟨"nome", "VARCHAR", false, false⟩,
       ⟨"data_nascimento", "DATE", false, false⟩,
       ⟨"cpf", "VARCHAR(14)", false, true⟩,
       ⟨"cep", "VARCHAR(9)", false, false⟩,
       ⟨"cidade", "VARCHAR(100)", false, false⟩,
       ⟨"estado", "VARCHAR(2)", false, false⟩,
       ⟨"pais", "VARCHAR(50)", false, false⟩,
       ⟨"genero", "CHAR(1)", false, false⟩,
       ⟨"telefone", "VARCHAR(20)", false, false⟩,
       ⟨"email", "VARCHAR(100)", false, true⟩,
       ⟨"data_cadastro", "DATE", false, false⟩],
    foreignKeys := [] }

/-- The `pedidos` DDL of `criar_tabelas` (source lines 43–61). -/
def pedidosDef : TableDef :=
  { columns :=
      [⟨"id_pedido", "UUID", true, false⟩,
       ⟨"cpf", "VARCHAR(14)", false, false⟩,
       ⟨"valor_pedido", "DECIMAL(10,2)", false, false⟩,
       ⟨"valor_frete", "DECIMAL(10,2)", false, false⟩,
       ⟨"valor_desconto", "DECIMAL(10,2)", false, false⟩,
       ⟨"cupom", "VARCHAR(50)", false, false⟩,
       ⟨"endereco_entrega_logradouro", "VARCHAR(100)", false, false⟩,
       ⟨"endereco_entrega_numero", "VARCHAR(10)", false, false⟩,
       ⟨"endereco_entrega_bairro", "VARCHAR(100)", false, false⟩,
       ⟨"endereco_entrega_cidade", "VARCHAR(100)", false, false⟩,
       ⟨"endereco_entrega_estado", "CHAR(2)", false, false⟩,
       ⟨"endereco_entrega_pais", "VARCHAR(50)", false, false⟩,
       ⟨"status_pedido", "VARCHAR(30)", false, false⟩,
       ⟨"data_pedido", "DATE", false, false⟩],
    foreignKeys := [("cpf", "cadastros", "cpf")] }

/-- The DuckDB catalog restricted to the two relations of the script. -/
structure Catalog where
  cadastros : Option TableDef
  pedidos : Option TableDef
deriving DecidableEq

/-- `CREATE TABLE IF NOT EXISTS`: a no-op when the relation already exists
(whatever its definition), otherwise install the given definition; it never
raises. -/
def createTableIfNotExists (existing : Option TableDef) (d : TableDef) :
    Option TableDef :=
  match existing with
  | none => some d
  | some t => some t

/-- `criar_tabelas()` (source lines 24–61): `CREATE TABLE IF NOT EXISTS` for
both relations. -/
def criar_tabelas (c : Catalog) : Catalog :=
  { cadastros := createTableIfNotExists c.cadastros cadastrosDef,
    pedidos := createTableIfNotExists c.pedidos pedidosDef }

/-- The transient artifacts of a run: the DuckDB connection, the working
database file and the `load.sql` / `schema.sql` files the CSV export leaves
behind. -/
structure FsState where
  con_open : Bool
  db_file : Bool
  load_sql : Bool
  schema_sql : Bool
deriving DecidableEq

/-- The `finally` block of `main` (source lines 268–280): close the
connection, then remove each of the three files if it exists. -/
def cleanupRun (s : FsState) : FsState :=
  let s1 : FsState := { s with con_open := false }
  let s2 : FsState := if s1.db_file then { s1 with db_file := false } else s1
  let s3 : FsState := if s2.load_sql then { s2 with load_sql := false } else s2
  if s3.schema_sql then { s3 with schema_sql := false } else s3

/-- `main()`'s `try/finally` (source lines 219–280): run the body — which may
stop at any stage, leaving an arbitrary state and, on failure, an error value
that is re-raised after the `finally` block — and then always run the cleanup. -/
def mainRun (body : FsState → Option String × FsState) (s0 : FsState) :
    Option String × FsState :=
  let be := body s0
  (be.1, cleanupRun be.2)

/-! ### Concrete inputs used by counterexamples and witnesses -/

/-- A constant seeded stream (every draw is `1/2`), standing for the draw
sequence fixed by `random.seed(42)`. -/
def rHalf : ℕ → ℚ := fun _ => 1/2

/-- One possible behaviour of the unseeded sources (uuid / Faker) in a run. -/
def osWitA : OsStreams :=
  { uuid := fun _ => "aaaa1111-xxxx", faker := fun _ => "dado-faker", digits := fun _ => 0 }

/-- Another behaviour of the unseeded sources: same Faker and digit draws as
`osWitA` but different `uuid.uuid4()` results, as happens between two OS
processes. -/
def osWitB : OsStreams :=
  { uuid := fun _ => "bbbb2222-yyyy", faker := fun _ => "dado-faker", digits := fun _ => 0 }

/-- A concrete customer row. -/
def cadW : Cadastro :=
  { id := "7d444840-9dc0-11d1-b245-5ffdce74fad2", nome := "Ana Souza",
    data_nascimento := "1990-01-01", cpf := "123.456.789-09", cep := "01000-000",
    cidade := "Sao Paulo", estado := "SP", pais := "Brasil", genero := "F",
    telefone := "11 99999-9999", email := "12345678909@exemplo.com.br",
    data_cadastro := "2024-05-01" }

/-- A concrete order row. -/
def pedW : Pedido :=
  { id_pedido := "11111111-2222-3333-4444-555555555555", cpf := "123.456.789-09",
    valor_pedido := 100, valor_frete := 10, valor_desconto := 0, cupom := none,
    endereco_entrega_logradouro := "Rua A", endereco_entrega_numero := "1",
    endereco_entrega_bairro := "Centro", endereco_entrega_cidade := "Sao Paulo",
    endereco_entrega_estado := "SP", endereco_entrega_pais := "Brasil",
    status_pedido := "pendente", data_pedido := "2024-01-01" }

/-- A record builder whose first build raises and whose later builds succeed. -/
def bpW : ℕ → Except String Pedido :=
  fun j => if j = 0 then Except.error "x" else Except.ok pedW

/-! ### Helper lemmas: chunk coverage -/

theorem ceil_div_ge (n : ℕ) : n ≤ (n + 10000 - 1) / 10000 * 10000 := by
  have h3 : n + 10000 - 1 = n + 9999 := by omega
  rw [h3]
  have h1 := Nat.div_add_mod (n + 9999) 10000
  have h2 : (n + 9999) % 10000 < 10000 := Nat.mod_lt _ (by norm_num)
  omega

theorem chunk_flatten_go (n : ℕ) :
    ∀ (m s : ℕ), n ≤ s + m * 10000 →
      ((List.range' s m 10000).map
          (fun s' => List.range' s' (min (s' + 10000) n - s'))).flatten
        = List.range' s (n - s) := by
  intro m
  induction m with
  | zero =>
    intro s h
    have hns : n - s = 0 := by omega
    simp [List.range', hns]
  | succ m ih =>
    intro s h
    rw [List.range'_succ]
    simp only [List.map_cons, List.flatten_cons]
    rcases le_or_lt (s + 10000) n with hle | hlt
    · have hmin : min (s + 10000) n = s + 10000 := min_eq_left hle
      have hsz : s + 10000 - s = 10000 := by omega
      rw [hmin, hsz, ih (s + 10000) (by omega)]
      have happ := List.range'_append s 10000 (n - (s + 10000)) 1
      have h1 : s + 1 * 10000 = s + 10000 := by omega
      have h2 : n - (s + 10000) + 10000 = n - s := by omega
      rw [h1, h2] at happ
      exact happ
    · have hmin : min (s + 10000) n = n := min_eq_right (le_of_lt hlt)
      rw [hmin, ih (s + 10000) (by omega)]
      have h2 : n - (s + 10000) = 0 := by omega
      rw [h2]
      simp [List.range']

theorem pyrange_chunk_flatten (n : ℕ) :
    ((pyrange 0 n 10000).map (fun s => List.range' s (min (s + 10000) n - s))).flatten
      = List.range n := by
  have h := chunk_flatten_go n ((n + 10000 - 1) / 10000) 0
    (by have := ceil_div_ge n; omega)
  simpa [pyrange, List.range_eq_range'] using h

/-! ### Helper lemmas: de-duplication -/

theorem dedupByAux_subset {α β : Type} [DecidableEq β] (key : α → β) :
    ∀ (l : List α) (seen : List β) {a : α}, a ∈ dedupByAux key l seen → a ∈ l := by
  intro l
  induction l with
  | nil => intro seen a h; simp [dedupByAux] at h
  | cons x xs ih =>
    intro seen a h
    by_cases hx : key x ∈ seen
    · simp only [dedupByAux, if_pos hx] at h
      exact List.mem_cons_of_mem _ (ih _ h)
    · simp only [dedupByAux, if_neg hx, List.mem_cons] at h
      rcases h with h | h
      · simp [h]
      · exact List.mem_cons_of_mem _ (ih _ h)

theorem dedupByAux_key_nodup {α β : Type} [DecidableEq β] (key : α → β) :
    ∀ (l : List α) (seen : List β),
      ((dedupByAux key l seen).map key).Nodup ∧
        ∀ b ∈ (dedupByAux key l seen).map key, b ∉ seen := by
  intro l
  induction l with
  | nil => intro seen; simp [dedupByAux]
  | cons x xs ih =>
    intro seen
    by_cases hx : key x ∈ seen
    · simpa only [dedupByAux, if_pos hx] using ih seen
    · obtain ⟨h1, h2⟩ := ih (key x :: seen)
      simp only [dedupByAux, if_neg hx, List.map_cons, List.nodup_cons]
      refine ⟨⟨?_, h1⟩, ?_⟩
      · intro hmem
        have := h2 _ hmem
        simp at this
      · intro b hb
        rcases List.mem_cons.mp hb with hb' | hb'
        · intro hbs
          exact hx (hb' ▸ hbs)
        · intro hbs
          exact h2 _ hb' (List.mem_cons_of_mem _ hbs)

theorem dedupByAux_keys_mem {α β : Type} [DecidableEq β] (key : α → β) :
    ∀ (l : List α) (seen : List β) {b : β},
      b ∈ l.map key → b ∉ seen → b ∈ (dedupByAux key l seen).map key := by
  intro l
  induction l with
  | nil => intro seen b h; simp at h
  | cons x xs ih =>
    intro seen b hb hbs
    rcases List.mem_cons.mp hb with hb' | hb'
    · by_cases hx : key x ∈ seen
      · exact absurd (hb' ▸ hx) hbs
      · simp only [dedupByAux, if_neg hx, List.map_cons]
        exact hb' ▸ List.mem_cons_self _ _
    · by_cases hx : key x ∈ seen
      · simp only [dedupByAux, if_pos hx]
        exact ih _ hb' hbs
      · simp only [dedupByAux, if_neg hx, List.map_cons]
        by_cases hbx : b = key x
        · exact hbx ▸ List.mem_cons_self _ _
        · refine List.mem_cons_of_mem _ (ih _ hb' ?_)
          simp [hbx, hbs]

theorem card_insert_erase {β : Type} [DecidableEq β] (a : β) (s : Finset β) :
    (insert a s).card = (s.erase a).card + 1 := by
  by_cases h : a ∈ s
  · rw [Finset.insert_eq_of_mem h, ← Finset.card_erase_add_one h]
  · rw [Finset.erase_eq_of_not_mem h, Finset.card_insert_of_not_mem h]

theorem dedupByAux_length {α β : Type} [DecidableEq β] (key : α → β) :
    ∀ (l : List α) (seen : List β),
      (dedupByAux key l seen).length
        = ((l.map key).toFinset \ seen.toFinset).card := by
  intro l
  induction l with
  | nil => intro seen; simp [dedupByAux]
  | cons x xs ih =>
    intro seen
    by_cases hx : key x ∈ seen
    · simp only [dedupByAux, if_pos hx, ih, List.map_cons, List.toFinset_cons]
      rw [Finset.insert_sdiff_of_mem _ (List.mem_toFinset.mpr hx)]
    · simp only [dedupByAux, if_neg hx, List.length_cons, ih, List.map_cons,
        List.toFinset_cons]
      rw [Finset.sdiff_insert,
        Finset.insert_sdiff_of_not_mem _ (fun hm => hx (List.mem_toFinset.mp hm)),
        card_insert_erase]

theorem dedupBy_length {α β : Type} [DecidableEq β] (key : α → β) (l : List α) :
    (dedupBy key l).length = (l.map key).toFinset.card := by
  rw [dedupBy, dedupByAux_length]
  simp

theorem dedupBy_subset {α β : Type} [DecidableEq β] (key : α → β) (l : List α)
    {a : α} (h : a ∈ dedupBy key l) : a ∈ l :=
  dedupByAux_subset key l [] h

theorem dedupBy_key_nodup {α β : Type} [DecidableEq β] (key : α → β) (l : List α) :
    ((dedupBy key l).map key).Nodup :=
  (dedupByAux_key_nodup key l []).1

theorem dedupBy_keys_mem {α β : Type} [DecidableEq β] (key : α → β) (l : List α)
    {b : β} (h : b ∈ l.map key) : b ∈ (dedupBy key l).map key :=
  dedupByAux_keys_mem key l [] h (by simp)

/-! ### Helper lemmas: the random primitives -/

theorem pychoice_mem {α : Type} (x : ℚ) (l : List α) (d : α)
    (h0 : 0 ≤ x) (h1 : x < 1) (hl : l ≠ []) : pychoice x l d ∈ l := by
  have hlen : 0 < l.length := List.length_pos.mpr hl
  have hlenq : (0 : ℚ) < (l.length : ℚ) := by exact_mod_cast hlen
  have hnn : 0 ≤ ⌊x * (l.length : ℚ)⌋ :=
    Int.floor_nonneg.mpr (mul_nonneg h0 (le_of_lt hlenq))
  have hlt : ⌊x * (l.length : ℚ)⌋ < (l.length : ℤ) := by
    rw [Int.floor_lt]
    calc x * (l.length : ℚ) < 1 * (l.length : ℚ) :=
          mul_lt_mul_of_pos_right h1 hlenq
    _ = ((l.length : ℤ) : ℚ) := by push_cast; ring
  have hidx : (⌊x * (l.length : ℚ)⌋).toNat < l.length :=
    (Int.toNat_lt hnn).mpr hlt
  rw [pychoice, List.getD_eq_getElem _ _ hidx]
  exact List.getElem_mem _

theorem le_round2 (z : ℤ) (q : ℚ) (h : (z : ℚ) ≤ 100 * q) :
    (z : ℚ) / 100 ≤ round2 q := by
  have hr : z ≤ round (q * 100) := by
    rw [round_eq, Int.le_floor]
    calc (z : ℚ) ≤ 100 * q := h
    _ = q * 100 := by ring
    _ ≤ q * 100 + 1 / 2 := by linarith
  rw [round2]
  have : (z : ℚ) ≤ ((round (q * 100) : ℤ) : ℚ) := by exact_mod_cast hr
  exact div_le_div_of_nonneg_right this (by norm_num) |>.trans_eq rfl

/-! ### Helper lemmas: cpf strings -/

theorem digit_keep (v : Fin 10) : keepCh (Char.ofNat (48 + v.val)) = true := by
  fin_cases v <;> decide

theorem dot_keep : keepCh '.' = false := by decide

theorem dash_keep : keepCh '-' = false := by decide

theorem mkCpf_inj_of_strip {d d' : ℕ → Fin 10} {i i' : ℕ}
    (h : stripSep (mkCpf d i) = stripSep (mkCpf d' i')) :
    mkCpf d i = mkCpf d' i' := by
  have hd : (mkCpf d i).data.filter keepCh = (mkCpf d' i').data.filter keepCh :=
    congrArg String.data h
  simp only [mkCpf, List.filter_cons, digit_keep, dot_keep, dash_keep,
    List.filter_nil, Bool.false_eq_true, if_false, if_true, ite_false, ite_true,
    List.cons.injEq, and_true] at hd
  obtain ⟨h0, h1, h2, h3, h4, h5, h6, h7, h8, h9, h10⟩ := hd
  simp only [mkCpf]
  rw [h0, h1, h2, h3, h4, h5, h6, h7, h8, h9, h10]

/-! ### Helper lemmas: the customer batch -/

theorem cad_raw_flatten (o : OsStreams) (r : ℕ → ℚ) (n : ℕ) :
    ((pyrange 0 n 10000).map
        (fun s => (List.range' s (min (s + 10000) n - s)).map (gerarCadastro o r))).flatten
      = cadCandidates o r n := by
  have h1 : (pyrange 0 n 10000).map
        (fun s => (List.range' s (min (s + 10000) n - s)).map (gerarCadastro o r))
      = ((pyrange 0 n 10000).map
          (fun s => List.range' s (min (s + 10000) n - s))).map
            (List.map (gerarCadastro o r)) := by
    rw [List.map_map]
    rfl
  rw [h1, ← List.map_flatten, pyrange_chunk_flatten]
  rfl

theorem mem_cadChunks_flatten {o : OsStreams} {r : ℕ → ℚ} {n : ℕ} {c : Cadastro}
    (h : c ∈ (cadChunks o r n).flatten) : c ∈ cadCandidates o r n := by
  obtain ⟨chunk, hchunk, hc⟩ := List.mem_flatten.mp h
  obtain ⟨s, hs, rfl⟩ := List.mem_map.mp hchunk
  have hraw : c ∈ (List.range' s (min (s + 10000) n - s)).map (gerarCadastro o r) :=
    dedupBy_subset _ _ hc
  rw [← cad_raw_flatten o r n]
  exact List.mem_flatten.mpr ⟨_, List.mem_map_of_mem _ hs, hraw⟩

theorem mem_gerar_lote_cadastros {o : OsStreams} {r : ℕ → ℚ} {n : ℕ} {c : Cadastro}
    (h : c ∈ gerar_lote_cadastros o r n) : ∃ i, c = gerarCadastro o r i := by
  rw [gerar_lote_cadastros] at h
  split at h
  · simp at h
  · have h1 : c ∈ dedupBy (fun c => c.cpf) (cadChunks o r n).flatten :=
      List.take_subset _ _ h
    have h2 := mem_cadChunks_flatten (dedupBy_subset _ _ h1)
    obtain ⟨i, _, rfl⟩ := List.mem_map.mp h2
    exact ⟨i, rfl⟩

theorem cad_flatten_keys (o : OsStreams) (r : ℕ → ℚ) (n : ℕ) :
    (((cadChunks o r n).flatten).map (fun c => c.cpf)).toFinset
      = ((cadCandidates o r n).map (fun c => c.cpf)).toFinset := by
  ext b
  simp only [List.mem_toFinset, List.mem_map]
  constructor
  · rintro ⟨c, hc, rfl⟩
    exact ⟨c, mem_cadChunks_flatten hc, rfl⟩
  · rintro ⟨c, hc, rfl⟩
    have hc' : c ∈ ((pyrange 0 n 10000).map
        (fun s => (List.range' s (min (s + 10000) n - s)).map (gerarCadastro o r))).flatten := by
      rw [cad_raw_flatten]; exact hc
    obtain ⟨raw, hraw, hcr⟩ := List.mem_flatten.mp hc'
    obtain ⟨s, hs, rfl⟩ := List.mem_map.mp hraw
    have hkey : c.cpf ∈ ((List.range' s (min (s + 10000) n - s)).map
        (gerarCadastro o r)).map (fun c : Cadastro => c.cpf) :=
      List.mem_map_of_mem _ hcr
    have hkey2 := dedupBy_keys_mem (fun c : Cadastro => c.cpf) _ hkey
    obtain ⟨c', hc'', hkc⟩ := List.mem_map.mp hkey2
    exact ⟨c', List.mem_flatten.mpr ⟨_, List.mem_map_of_mem _ hs, hc''⟩, hkc⟩

theorem cadChunks_isEmpty (o : OsStreams) (r : ℕ → ℚ) (n : ℕ) :
    (cadChunks o r n).isEmpty = true ↔ n = 0 := by
  rw [List.isEmpty_iff, cadChunks, List.map_eq_nil_iff, pyrange,
    List.range'_eq_nil]
  constructor
  · intro h
    have h2 : (n + 10000 - 1) % 10000 < 10000 := Nat.mod_lt _ (by norm_num)
    have h1 := Nat.div_add_mod (n - 0 + 10000 - 1) 10000
    omega
  · intro h; subst h; rfl

/-- C4: for every requested count `N`, `gerar_lote_cadastros` returns exactly
`min N (number of generated candidate records with distinct tax ids)` records
— the within-chunk and across-batch de-duplications keep exactly one record
per distinct cpf among the candidates, and `df.head(N)` then bounds the
result — and in particular never more than `N` records. -/
theorem C4_cadastros_batch_size (o : OsStreams) (r : ℕ → ℚ) (n : ℕ) :
    (gerar_lote_cadastros o r n).length
      = min n (((cadCandidates o r n).map (fun c => c.cpf)).toFinset.card) ∧
    (gerar_lote_cadastros o r n).length ≤ n := by
  have hmain : (gerar_lote_cadastros o r n).length
      = min n (((cadCandidates o r n).map (fun c : Cadastro => c.cpf)).toFinset.card) := by
    rw [gerar_lote_cadastros]
    split
    · next hemp =>
      have hn : n = 0 := (cadChunks_isEmpty o r n).mp (by simpa using hemp)
      subst hn
      simp
    · rw [List.length_take, dedupBy_length, cad_flatten_keys]
  exact ⟨hmain, by rw [hmain]; exact min_le_left _ _⟩

/-- C5: no two records of a generated customer batch share a cpf, and no two
share an email: the email is derived from the cpf (strip separators, append
the fixed domain), the cpf always comes out of the `###.###.###-##` mask, and
on strings of that shape the derivation is injective, so cpf uniqueness
transfers to email uniqueness. -/
theorem C5_cadastros_unique_cpf_email (o : OsStreams) (r : ℕ → ℚ) (n : ℕ) :
    ((gerar_lote_cadastros o r n).map (fun c => c.cpf)).Nodup ∧
    ((gerar_lote_cadastros o r n).map (fun c => c.email)).Nodup := by
  have hcpf : ((gerar_lote_cadastros o r n).map (fun c : Cadastro => c.cpf)).Nodup := by
    rw [gerar_lote_cadastros]
    split
    · simp
    · rw [List.map_take]
      exact List.Nodup.sublist (List.take_sublist _ _) (dedupBy_key_nodup _ _)
  refine ⟨hcpf, ?_⟩
  have hnodup : (gerar_lote_cadastros o r n).Nodup := List.Nodup.of_map _ hcpf
  refine List.Nodup.map_on ?_ hnodup
  intro x hx y hy hexy
  obtain ⟨i, rfl⟩ := mem_gerar_lote_cadastros hx
  obtain ⟨j, rfl⟩ := mem_gerar_lote_cadastros hy
  have hexy' : stripSep (mkCpf o.digits i) ++ "@exemplo.com.br"
      = stripSep (mkCpf o.digits j) ++ "@exemplo.com.br" := hexy
  have hd := congrArg String.data hexy'
  rw [String.data_append, String.data_append] at hd
  have hse : stripSep (mkCpf o.digits i) = stripSep (mkCpf o.digits j) :=
    String.ext (List.append_cancel_right hd)
  have hcpfeq : (gerarCadastro o r i).cpf = (gerarCadastro o r j).cpf :=
    mkCpf_inj_of_strip hse
  exact List.inj_on_of_nodup_map hcpf hx hy hcpfeq

/-! ### Helper lemmas: the order batch -/

theorem mem_buildPedidos {o : OsStreams} {r : ℕ → ℚ} {cpfs : List String} :
    ∀ {k : ℕ} {p : GenPos} {ped : Pedido},
      ped ∈ (buildPedidos o r cpfs k p).1 → ∃ q, ped = (gerarPedido o r cpfs q).1 := by
  intro k
  induction k with
  | zero => intro p ped h; simp [buildPedidos] at h
  | succ k ih =>
    intro p ped h
    simp only [buildPedidos, List.mem_cons] at h
    rcases h with h | h
    · exact ⟨p, h⟩
    · exact ih h

theorem mem_pedChunksGo {o : OsStreams} {r : ℕ → ℚ} {cpfs : List String} {n : ℕ} :
    ∀ {ss : List ℕ} {p : GenPos} {chunk : List Pedido},
      chunk ∈ (pedChunksGo o r cpfs n ss p).1 →
        ∃ k q, chunk = (buildPedidos o r cpfs k q).1 := by
  intro ss
  induction ss with
  | nil => intro p chunk h; simp [pedChunksGo] at h
  | cons s ss ih =>
    intro p chunk h
    simp only [pedChunksGo, List.mem_cons] at h
    rcases h with h | h
    · exact ⟨_, _, h⟩
    · exact ih h

theorem mem_gerar_lote_pedidos {o : OsStreams} {r : ℕ → ℚ} {cpfs : List String}
    {n : ℕ} {ped : Pedido} (h : ped ∈ gerar_lote_pedidos o r cpfs n) :
    ∃ q, ped = (gerarPedido o r cpfs q).1 := by
  rw [gerar_lote_pedidos] at h
  obtain ⟨chunk, hchunk, hped⟩ := List.mem_flatten.mp h
  obtain ⟨k, q, rfl⟩ := mem_pedChunksGo hchunk
  exact mem_buildPedidos hped

theorem gerarPedido_cpf (o : OsStreams) (r : ℕ → ℚ) (cpfs : List String) (q : GenPos)
    (hr : ∀ i, 0 ≤ r i ∧ r i < 1) (hcpfs : cpfs ≠ []) :
    ((gerarPedido o r cpfs q).1).cpf ∈ cpfs := by
  rw [gerarPedido]
  split <;> exact pychoice_mem _ _ _ (hr q.rp).1 (hr q.rp).2 hcpfs

theorem desconto_pos (x1 x3 : ℚ) (h1 : 0 ≤ x1) (h3 : 0 ≤ x3) :
    0 < round2 (round2 (pyuniform 50 2000 x1) * pyuniform (1/20) (1/5) x3) := by
  have hvt : (50 : ℚ) ≤ round2 (pyuniform 50 2000 x1) := by
    have h := le_round2 5000 (pyuniform 50 2000 x1) (by rw [pyuniform]; push_cast; linarith)
    norm_num at h
    linarith
  have hu : (1/20 : ℚ) ≤ pyuniform (1/20) (1/5) x3 := by
    rw [pyuniform]; linarith
  have hprod : (5/2 : ℚ) ≤ round2 (pyuniform 50 2000 x1) * pyuniform (1/20) (1/5) x3 := by
    calc (5/2 : ℚ) = 50 * (1/20) := by norm_num
    _ ≤ round2 (pyuniform 50 2000 x1) * pyuniform (1/20) (1/5) x3 :=
        mul_le_mul hvt hu (by norm_num) (by linarith)
  have h250 := le_round2 250 _ (by push_cast; linarith :
    ((250 : ℤ) : ℚ) ≤ 100 * (round2 (pyuniform 50 2000 x1) * pyuniform (1/20) (1/5) x3))
  norm_num at h250
  linarith

theorem gerarPedido_cupom_desconto (o : OsStreams) (r : ℕ → ℚ) (cpfs : List String)
    (q : GenPos) (hr : ∀ i, 0 ≤ r i ∧ r i < 1) :
    (((gerarPedido o r cpfs q).1).cupom ≠ none
        ↔ 0 < ((gerarPedido o r cpfs q).1).valor_desconto)
    ∧ (((gerarPedido o r cpfs q).1).cupom = none
        → ((gerarPedido o r cpfs q).1).valor_desconto = 0) := by
  rw [gerarPedido]
  split
  · refine ⟨⟨fun _ => ?_, fun _ => by simp⟩, fun hno => ?_⟩
    · exact desconto_pos _ _ (hr (q.rp + 1)).1 (hr (q.rp + 3)).1
    · exact absurd hno (by simp)
  · refine ⟨⟨fun hne => absurd rfl hne, fun hlt => absurd hlt (by norm_num)⟩, fun _ => rfl⟩

/-! ### Helper lemmas: which fields the seed determines -/

theorem gerarPedido_seedView (o o' : OsStreams) (r : ℕ → ℚ) (cpfs : List String)
    {p q : GenPos} (h : p.rp = q.rp) :
    seedView (gerarPedido o r cpfs p).1 = seedView (gerarPedido o' r cpfs q).1 ∧
    ((gerarPedido o r cpfs p).2).rp = ((gerarPedido o' r cpfs q).2).rp := by
  rw [gerarPedido, gerarPedido, h]
  by_cases hx : r (q.rp + 2) < 1/5
  · rw [if_pos hx, if_pos hx]
    exact ⟨by simp only [seedView, Option.isSome_some], rfl⟩
  · rw [if_neg hx, if_neg hx]
    exact ⟨by simp only [seedView, Option.isSome_none], rfl⟩

theorem buildPedidos_seedView (o o' : OsStreams) (r : ℕ → ℚ) (cpfs : List String) :
    ∀ (k : ℕ) {p q : GenPos}, p.rp = q.rp →
      (buildPedidos o r cpfs k p).1.map seedView
          = (buildPedidos o' r cpfs k q).1.map seedView ∧
      ((buildPedidos o r cpfs k p).2).rp = ((buildPedidos o' r cpfs k q).2).rp := by
  intro k
  induction k with
  | zero => intro p q h; exact ⟨rfl, h⟩
  | succ k ih =>
    intro p q h
    obtain ⟨h1, h2⟩ := gerarPedido_seedView o o' r cpfs h
    obtain ⟨h3, h4⟩ := ih h2
    simp only [buildPedidos, List.map_cons]
    exact ⟨by rw [h1, h3], h4⟩

theorem pedChunksGo_seedView (o o' : OsStreams) (r : ℕ → ℚ) (cpfs : List String)
    (n : ℕ) :
    ∀ (ss : List ℕ) {p q : GenPos}, p.rp = q.rp →
      (pedChunksGo o r cpfs n ss p).1.map (List.map seedView)
          = (pedChunksGo o' r cpfs n ss q).1.map (List.map seedView) ∧
      ((pedChunksGo o r cpfs n ss p).2).rp = ((pedChunksGo o' r cpfs n ss q).2).rp := by
  intro ss
  induction ss with
  | nil => intro p q h; exact ⟨rfl, h⟩
  | cons s ss ih =>
    intro p q h
    obtain ⟨h1, h2⟩ := buildPedidos_seedView o o' r cpfs (min (s + 10000) n - s) h
    obtain ⟨h3, h4⟩ := ih h2
    simp only [pedChunksGo, List.map_cons]
    exact ⟨by rw [h1, h3], h4⟩

theorem pedidos_seedView (o o' : OsStreams) (r : ℕ → ℚ) (cpfs : List String) (n : ℕ) :
    (gerar_lote_pedidos o r cpfs n).map seedView
      = (gerar_lote_pedidos o' r cpfs n).map seedView := by
  rw [gerar_lote_pedidos, gerar_lote_pedidos, List.map_flatten, List.map_flatten]
  exact congrArg List.flatten
    (pedChunksGo_seedView o o' r cpfs n (pyrange 0 n 10000) rfl).1

/-! ### Helper lemmas: the exception-level embeddings -/

theorem pedChunkE_filterMap (build : ℕ → Except String Pedido) :
    ∀ idxs : List ℕ,
      pedChunkE build idxs = idxs.filterMap (fun i => (build i).toOption) := by
  intro idxs
  induction idxs with
  | nil => rfl
  | cons i is ih =>
    rw [List.filterMap_cons]
    cases hb : build i <;> simp [pedChunkE, hb, ih, Except.toOption]

theorem pedChunksE_flatten_ok (build : ℕ → Except String Pedido) (n : ℕ) :
    ∀ ss : List ℕ,
      (pedChunksE build (fun l => Except.ok l) n ss).flatten
        = ((ss.map (fun s => List.range' s (min (s + 10000) n - s))).flatten).filterMap
            (fun i => (build i).toOption) := by
  intro ss
  induction ss with
  | nil => rfl
  | cons s ss ih =>
    simp only [pedChunksE, List.map_cons, List.flatten_cons, List.filterMap_append,
      pedChunkE_filterMap]
    by_cases hcd : ((List.range' s (min (s + 10000) n - s)).filterMap
        (fun i => (build i).toOption)).isEmpty
    · rw [if_pos hcd, ih, List.isEmpty_iff.mp hcd]
      rfl
    · rw [if_neg hcd]
      simp only [List.flatten_cons, ih]

theorem pedidosE_ok_all (build : ℕ → Except String Pedido) (n : ℕ) :
    gerar_lote_pedidosE build (fun l => Except.ok l) (fun ls => Except.ok ls.flatten) n
      = Except.ok ((List.range n).filterMap (fun i => (build i).toOption)) := by
  have hfl := pedChunksE_flatten_ok build n (pyrange 0 n 10000)
  rw [pyrange_chunk_flatten] at hfl
  rw [gerar_lote_pedidosE]
  by_cases hemp : (pedChunksE build (fun l => Except.ok l) n (pyrange 0 n 10000)).isEmpty
  · rw [if_pos hemp]
    rw [List.isEmpty_iff.mp hemp] at hfl
    simp only [List.flatten_nil] at hfl
    rw [← hfl]
    rfl
  · rw [if_neg hemp]
    calc tryBody (Except.ok
          (pedChunksE build (fun l => Except.ok l) n (pyrange 0 n 10000)).flatten)
        = Except.ok
          (pedChunksE build (fun l => Except.ok l) n (pyrange 0 n 10000)).flatten := rfl
    _ = Except.ok ((List.range n).filterMap (fun i => (build i).toOption)) := by
        rw [hfl]

theorem cadChunkE_error (build : ℕ → Except String Cadastro) :
    ∀ idxs : List ℕ, (∃ i ∈ idxs, ∃ e, build i = Except.error e) →
      ∃ e, cadChunkE build idxs = Except.error e := by
  intro idxs
  induction idxs with
  | nil => rintro ⟨i, hi, _⟩; simp at hi
  | cons j js ih =>
    rintro ⟨i, hi, e, he⟩
    rcases List.mem_cons.mp hi with rfl | hi'
    · exact ⟨e, by simp [cadChunkE, he]⟩
    · cases hbj : build j with
      | error e' => exact ⟨e', by simp [cadChunkE, hbj]⟩
      | ok c =>
        obtain ⟨e2, he2⟩ := ih ⟨i, hi', e, he⟩
        exact ⟨e2, by simp [cadChunkE, hbj, he2]⟩

theorem cadChunksE_error (build : ℕ → Except String Cadastro) (n : ℕ) :
    ∀ ss : List ℕ,
      (∃ s ∈ ss, ∃ e,
        cadChunkE build (List.range' s (min (s + 10000) n - s)) = Except.error e) →
      ∃ e, cadChunksE build n ss = Except.error e := by
  intro ss
  induction ss with
  | nil => rintro ⟨s, hs, _⟩; simp at hs
  | cons t ts ih =>
    rintro ⟨s, hs, e, he⟩
    rcases List.mem_cons.mp hs with rfl | hs'
    · exact ⟨e, by simp [cadChunksE, he]⟩
    · cases hbt : cadChunkE build (List.range' t (min (t + 10000) n - t)) with
      | error e' => exact ⟨e', by simp [cadChunksE, hbt]⟩
      | ok cd =>
        obtain ⟨e2, he2⟩ := ih ⟨s, hs', e, he⟩
        exact ⟨e2, by simp [cadChunksE, hbt, he2]⟩

theorem cadastrosE_error_of_build_error (build : ℕ → Except String Cadastro)
    {m i : ℕ} {e : String} (hi : i < m) (he : build i = Except.error e) :
    ∃ e', gerar_lote_cadastrosE build m = Except.error e' := by
  have hmem : i ∈ ((pyrange 0 m 10000).map
      (fun s => List.range' s (min (s + 10000) m - s))).flatten := by
    rw [pyrange_chunk_flatten]
    exact List.mem_range.mpr hi
  obtain ⟨idxs, hidxs, hiid⟩ := List.mem_flatten.mp hmem
  obtain ⟨s, hs, rfl⟩ := List.mem_map.mp hidxs
  obtain ⟨e1, he1⟩ := cadChunkE_error build _ ⟨i, hiid, e, he⟩
  obtain ⟨e2, he2⟩ := cadChunksE_error build m (pyrange 0 m 10000) ⟨s, hs, e1, he1⟩
  refine ⟨e2, ?_⟩
  unfold gerar_lote_cadastrosE
  rw [he2]
  rfl

/-! ### Claim theorems -/

theorem rHalf_bounds : ∀ i, 0 ≤ rHalf i ∧ rHalf i < 1 :=
  fun _ => ⟨by norm_num [rHalf], by norm_num [rHalf]⟩

/-- C1 (code bug, failing input): `inserir_em_lote` logs
`SELECT COUNT(*) FROM temp_df` — the number of rows in the staged dataframe —
as "registros inseridos", not the number of rows actually persisted.  Loading
the batch `[cadW]` into a table that already holds `cadW` persists 0 rows (the
`INSERT OR IGNORE` drops the conflicting row, the table is unchanged), yet the
logged count is 1. -/
theorem C1_loader_reported_count_failing_input :
    (inserir_em_lote conflictCad [cadW] [cadW]).1 = [cadW] ∧
    (inserir_em_lote conflictCad [cadW] [cadW]).2 = some 1 := by
  constructor <;> rfl

/-- C2 (counterexample): the customer generator has no per-record handler, so
a record build that raises aborts the whole batch: with every build failing
and one requested record, `gerar_lote_cadastros` propagates the error instead
of skipping the record and producing a batch. -/
theorem C2_counterexample_cadastros_abort :
    gerar_lote_cadastrosE (fun _ => Except.error "falha ao gerar registro") 1
      = Except.error "falha ao gerar registro" := rfl

/-- C2 (amended): only the order generator skips a record whose build raises —
`gerar_lote_pedidos` returns exactly the successfully built records of the
batch, for every pattern of per-record failures — while the customer generator
has no per-record handler, so any record-build failure inside a requested
batch makes `gerar_lote_cadastros` propagate the error and abort the whole
batch. -/
theorem C2_amended_per_record_failure (bp : ℕ → Except String Pedido)
    (bc : ℕ → Except String Cadastro) (n m i : ℕ) (e : String) :
    gerar_lote_pedidosE bp (fun l => Except.ok l) (fun ls => Except.ok ls.flatten) n
        = Except.ok ((List.range n).filterMap (fun j => (bp j).toOption)) ∧
    (i < m → bc i = Except.error e →
      ∃ e', gerar_lote_cadastrosE bc m = Except.error e') :=
  ⟨pedidosE_ok_all bp n, fun hi he => cadastrosE_error_of_build_error bc hi he⟩

/-- C2 (witness): the amended statement applied at a concrete input — the
order builder failing at index 0 out of 2, and a customer builder failing on
its single requested record. -/
theorem C2_amended_per_record_failure_witness :
    (0 < 1 ∧ (fun _ : ℕ => (Except.error "boom" : Except String Cadastro)) 0
        = Except.error "boom") ∧
    gerar_lote_pedidosE bpW (fun l => Except.ok l) (fun ls => Except.ok ls.flatten) 2
        = Except.ok ((List.range 2).filterMap (fun j => (bpW j).toOption)) ∧
    (∃ e', gerar_lote_cadastrosE (fun _ : ℕ => (Except.error "boom" : Except String Cadastro)) 1
        = Except.error e') :=
  ⟨⟨by decide, rfl⟩,
   (C2_amended_per_record_failure bpW (fun _ => Except.error "boom") 2 1 0 "boom").1,
   (C2_amended_per_record_failure bpW (fun _ => Except.error "boom") 2 1 0 "boom").2
     (by decide) rfl⟩

/-- C3 (counterexample): two runs that perform the same module-level seeding
(the same seeded stream `rHalf`) and use the same configuration (one requested
record) do NOT produce byte-identical record sets: `uuid.uuid4()` and the
Faker generator are not governed by `random.seed(42)`, and when those
OS-entropy sources return different draws (`osWitA` vs `osWitB`, identical
except for the uuid draws) the generated customer records differ. -/
theorem C3_counterexample_same_seed_different_output :
    gerar_lote_cadastros osWitA rHalf 1 ≠ gerar_lote_cadastros osWitB rHalf 1 := by
  decide

/-- C3 (amended): with the same seed and configuration, two runs agree on
everything drawn from the seeded `random` module — for orders the chosen cpf,
order value, freight, discount value, presence of a coupon, and status agree
record by record regardless of what the unseeded sources return; for customers
the gender draw of each candidate agrees — and the full record sets are
byte-identical only when the unseeded OS-entropy sources (uuid4 and the
unseeded Faker generator) also return identical draws. -/
theorem C3_amended_determinism (r : ℕ → ℚ) (o o' : OsStreams) (cpfs : List String)
    (n : ℕ) :
    (gerar_lote_pedidos o r cpfs n).map seedView
        = (gerar_lote_pedidos o' r cpfs n).map seedView
    ∧ (∀ i, (gerarCadastro o r i).genero = (gerarCadastro o' r i).genero)
    ∧ (o = o' →
        gerar_lote_cadastros o r n = gerar_lote_cadastros o' r n
        ∧ gerar_lote_pedidos o r cpfs n = gerar_lote_pedidos o' r cpfs n) := by
  refine ⟨pedidos_seedView o o' r cpfs n, fun i => rfl, ?_⟩
  rintro rfl
  exact ⟨rfl, rfl⟩

/-- C3 (witness): the amended statement applied at a concrete input, with the
two runs sharing both the seeded stream and the OS-entropy streams. -/
theorem C3_amended_determinism_witness :
    (osWitA = osWitA) ∧
    ((gerar_lote_pedidos osWitA rHalf ["123.456.789-09"] 1).map seedView
        = (gerar_lote_pedidos osWitA rHalf ["123.456.789-09"] 1).map seedView
    ∧ (∀ i, (gerarCadastro osWitA rHalf i).genero
        = (gerarCadastro osWitA rHalf i).genero)
    ∧ (osWitA = osWitA →
        gerar_lote_cadastros osWitA rHalf 1 = gerar_lote_cadastros osWitA rHalf 1
        ∧ gerar_lote_pedidos osWitA rHalf ["123.456.789-09"] 1
            = gerar_lote_pedidos osWitA rHalf ["123.456.789-09"] 1)) :=
  ⟨rfl, C3_amended_determinism rHalf osWitA osWitA ["123.456.789-09"] 1⟩

/-- C6: every order generated by `gerar_lote_pedidos` references a tax id
taken from the list handed in — the list `main` reads back from the
`cadastros` relation (`SELECT cpf FROM cadastros`) after the customer loads —
so every generated order references a previously generated customer. -/
theorem C6_orders_reference_customers (o : OsStreams) (r : ℕ → ℚ)
    (table : List Cadastro) (n : ℕ)
    (hr : ∀ i, 0 ≤ r i ∧ r i < 1) (htable : table ≠ []) :
    ∀ ped ∈ gerar_lote_pedidos o r (cpfs_cadastrados table) n,
      ∃ c ∈ table, ped.cpf = c.cpf := by
  intro ped hped
  obtain ⟨q, rfl⟩ := mem_gerar_lote_pedidos hped
  have hmem := gerarPedido_cpf o r (cpfs_cadastrados table) q hr
    (by simpa [cpfs_cadastrados] using htable)
  obtain ⟨c, hc, hcc⟩ := List.mem_map.mp hmem
  exact ⟨c, hc, hcc.symm⟩

/-- C6 (witness): the statement applied to a one-row customer table and a
batch of one order. -/
theorem C6_orders_reference_customers_witness :
    ((∀ i, 0 ≤ rHalf i ∧ rHalf i < 1) ∧ [cadW] ≠ ([] : List Cadastro)) ∧
    ∀ ped ∈ gerar_lote_pedidos osWitA rHalf (cpfs_cadastrados [cadW]) 1,
      ∃ c ∈ [cadW], ped.cpf = c.cpf :=
  ⟨⟨rHalf_bounds, by simp⟩,
   C6_orders_reference_customers osWitA rHalf [cadW] 1 rHalf_bounds (by simp)⟩

/-- C7: in every generated order the coupon is non-null exactly when the
discount value is strictly positive (a coupon is attached precisely on the
seeded 20% discount draw, and then the discount `round(valor_total *
uniform(0.05, 0.2), 2)` is at least 2.5), and with a null coupon the discount
is exactly 0. -/
theorem C7_coupon_iff_discount (o : OsStreams) (r : ℕ → ℚ) (cpfs : List String)
    (n : ℕ) (hr : ∀ i, 0 ≤ r i ∧ r i < 1) :
    ∀ ped ∈ gerar_lote_pedidos o r cpfs n,
      (ped.cupom ≠ none ↔ 0 < ped.valor_desconto) ∧
      (ped.cupom = none → ped.valor_desconto = 0) := by
  intro ped hped
  obtain ⟨q, rfl⟩ := mem_gerar_lote_pedidos hped
  exact gerarPedido_cupom_desconto o r cpfs q hr

/-- C7 (witness): the statement applied to a batch of one order. -/
theorem C7_coupon_iff_discount_witness :
    (∀ i, 0 ≤ rHalf i ∧ rHalf i < 1) ∧
    ∀ ped ∈ gerar_lote_pedidos osWitA rHalf ["123.456.789-09"] 1,
      (ped.cupom ≠ none ↔ 0 < ped.valor_desconto) ∧
      (ped.cupom = none → ped.valor_desconto = 0) :=
  ⟨rHalf_bounds,
   C7_coupon_iff_discount osWitA rHalf ["123.456.789-09"] 1 rHalf_bounds⟩

/-- C8: `criar_tabelas` is idempotent — `CREATE TABLE IF NOT EXISTS` leaves an
existing relation untouched and never raises, so a second invocation leaves
the catalog (both relations with their column and constraint definitions)
exactly as the first one left it. -/
theorem C8_criar_tabelas_idempotent (c : Catalog) :
    criar_tabelas (criar_tabelas c) = criar_tabelas c := by
  rcases c with ⟨cad, ped⟩
  cases cad <;> cases ped <;> rfl

/-- C9: whatever the body of `main` does — complete normally or stop at any
stage with an error that is re-raised afterwards — the `finally` block runs:
the connection is closed and the transient DuckDB file and the `load.sql` /
`schema.sql` descriptor files are all absent after the run, and the body's
outcome (normal or error) is preserved. -/
theorem C9_cleanup_always_runs (body : FsState → Option String × FsState)
    (s0 : FsState) :
    (mainRun body s0).1 = (body s0).1 ∧
    (mainRun body s0).2.con_open = false ∧
    (mainRun body s0).2.db_file = false ∧
    (mainRun body s0).2.load_sql = false ∧
    (mainRun body s0).2.schema_sql = false := by
  have hclean : ∀ s : FsState, cleanupRun s = ⟨false, false, false, false⟩ := by
    rintro ⟨a, b, c, d⟩
    cases b <;> cases c <;> cases d <;> rfl
  rw [mainRun]
  exact ⟨rfl, by rw [hclean], by rw [hclean], by rw [hclean], by rw [hclean]⟩

/-- C10: `gerar_lote_pedidos` never propagates an exception: every failure
not absorbed by the per-record or per-chunk handlers is caught by the
outermost handler, so the call always returns a dataframe; in particular a
`pd.concat` that always raises silently yields an empty batch. -/
theorem C10_pedidos_never_raise (build : ℕ → Except String Pedido)
    (mkDf : List Pedido → Except String (List Pedido))
    (concatDf : List (List Pedido) → Except String (List Pedido)) (n : ℕ) :
    (∃ l, gerar_lote_pedidosE build mkDf concatDf n = Except.ok l) ∧
    (∀ e, gerar_lote_pedidosE build mkDf (fun _ => Except.error e) n
        = Except.ok []) := by
  constructor
  · rw [gerar_lote_pedidosE]
    cases hb : (if (pedChunksE build mkDf n (pyrange 0 n 10000)).isEmpty
        then Except.ok [] else concatDf (pedChunksE build mkDf n (pyrange 0 n 10000))) with
    | ok l => exact ⟨l, rfl⟩
    | error e => exact ⟨[], rfl⟩
  · intro e
    rw [gerar_lote_pedidosE]
    by_cases hemp : (pedChunksE build mkDf n (pyrange 0 n 10000)).isEmpty
    · rw [if_pos hemp]
      rfl
    · rw [if_neg hemp]
      rfl
